import Mathlib

/-!
Verification of the Darusalaampharmcy inventory/point-of-sale core.

The repository contains two implementations of the sale engine:
* a local embedded variant (`src/db/db.js`, Dexie/IndexedDB), modelled in
  namespace `Dexie`;
* a hosted networked variant (the Supabase db layer), modelled in namespace
  `Supa`.

Monetary amounts are modelled as rationals, stock quantities and sale
quantities as integers (JS numbers at the precision the program uses them),
timestamps as naturals.  Thrown-and-caught JS errors become `Except` values:
each error constructor corresponds to one thrown message template.
-/

/-- Typed failures of the sale engine.  Each constructor stands for one
thrown-message template of the source:
* `medicineNotFound` for the thrown string saying the medicine was not found;
* `insufficientStock a r` for the thrown message reporting available stock `a`
  and requested quantity `r`;
* `notAuthenticated` for the thrown message about a missing user;
* `invalidQuantity` for the quantity-validation failure of the spec;
* `infraFailure` for an injected storage/network failure. -/
inductive SaleError where
  | medicineNotFound
  | insufficientStock (available requested : ℤ)
  | notAuthenticated
  | invalidQuantity
  | infraFailure
deriving DecidableEq, Repr

/-- Payload of a successful sale, as returned by both variants:
`{ saleId, medicineName, quantitySold, totalPrice, remainingStock }`. -/
structure SaleData where
  saleId : Nat
  medicineName : String
  quantitySold : ℤ
  totalPrice : ℚ
  remainingStock : ℤ
deriving DecidableEq, Repr

namespace Dexie

/-- A row of the `medicines` table of the embedded store
(`{ id, name, price, quantity, expiryDate, createdAt }`). -/
structure Medicine where
  id : Nat
  name : String
  price : ℚ
  quantity : ℤ
  expiryDate : String := ""
  createdAt : String := ""
deriving DecidableEq, Repr

/-- A row of the `sales` table of the embedded store
(`{ id, medicineId, medicineName, quantitySold, unitPrice, totalPrice,
saleDate }`). -/
structure Sale where
  id : Nat
  medicineId : Option Nat
  medicineName : String
  quantitySold : ℤ
  unitPrice : ℚ
  totalPrice : ℚ
  saleDate : Nat
deriving DecidableEq, Repr

/-- The embedded database: both tables plus the auto-increment counter for
the sales primary key. -/
structure DB where
  medicines : List Medicine
  sales : List Sale
  nextSaleId : Nat := 1
deriving DecidableEq, Repr

/-- `db.medicines.get(id)`: the (first) row with the given primary key. -/
def findMedicine (db : DB) (id : Nat) : Option Medicine :=
  db.medicines.find? (fun m => m.id == id)

/-- `db.medicines.update(id, { quantity })`: set the stock of the row with
the given primary key. -/
def setQuantity (db : DB) (id : Nat) (v : ℤ) : DB :=
  { db with medicines :=
      db.medicines.map (fun m => if m.id == id then { m with quantity := v } else m) }

/-- `createSale(medicineId, quantity)` of `src/db/db.js`.  The body runs in a
Dexie read-write transaction over both tables: a throw anywhere inside it
(modelled by the early returns and by the injected failure flag `addFails`
standing for a failing `db.sales.add`) rolls the transaction back, so every
failure path returns the input state unchanged.  The catch block converts the
thrown error into a `success: false` result value. -/
def createSale (db : DB) (medicineId : Nat) (quantity : ℤ) (now : Nat)
    (addFails : Bool) : Except SaleError SaleData × DB :=
  match findMedicine db medicineId with
  | none => (Except.error SaleError.medicineNotFound, db)
  | some medicine =>
    if medicine.quantity < quantity then
      (Except.error (SaleError.insufficientStock medicine.quantity quantity), db)
    else
      let totalPrice : ℚ := medicine.price * (quantity : ℚ)
      let newQuantity : ℤ := medicine.quantity - quantity
      if addFails then
        (Except.error SaleError.infraFailure, db)
      else
        let db1 := setQuantity db medicineId newQuantity
        let sale : Sale :=
          { id := db.nextSaleId, medicineId := some medicineId,
            medicineName := medicine.name, quantitySold := quantity,
            unitPrice := medicine.price, totalPrice := totalPrice,
            saleDate := now }
        (Except.ok
          { saleId := db.nextSaleId, medicineName := medicine.name,
            quantitySold := quantity, totalPrice := totalPrice,
            remainingStock := newQuantity },
         { medicines := db1.medicines, sales := db.sales ++ [sale],
           nextSaleId := db.nextSaleId + 1 })

/-- A sequence of `createSale` calls, each given as
(medicineId, quantity, timestamp, injected-append-failure). -/
def runSales (db : DB) (calls : List (Nat × ℤ × Nat × Bool)) : DB :=
  calls.foldl (fun s c => (createSale s c.1 c.2.1 c.2.2.1 c.2.2.2).2) db

/-- Every item of the inventory has nonnegative stock. -/
def allNonneg (db : DB) : Prop :=
  ∀ m ∈ db.medicines, 0 ≤ m.quantity

instance (db : DB) : Decidable (allNonneg db) :=
  inferInstanceAs (Decidable (∀ m ∈ db.medicines, 0 ≤ m.quantity))

/-- `getLowStockMedicines(threshold)`: rows with `quantity < threshold`. -/
def getLowStockMedicines (db : DB) (threshold : ℤ) : List Medicine :=
  db.medicines.filter (fun m => decide (m.quantity < threshold))

/-- `getTodaysSales()`: sales whose date is on or after local midnight
(`todayStart`). -/
def getTodaysSales (db : DB) (todayStart : Nat) : List Sale :=
  db.sales.filter (fun s => decide (todayStart ≤ s.saleDate))

/-- The dashboard payload of the embedded variant. -/
structure Stats where
  totalMedicines : Nat
  totalItems : ℤ
  totalStockValue : ℚ
  todaysSalesCount : Nat
  todaysRevenue : ℚ
  lowStockCount : Nat
  lowStockItems : List Medicine
deriving DecidableEq, Repr

/-- `getDashboardStats()` of `src/db/db.js`.  Note the low-stock query is
invoked with threshold `5`. -/
def getDashboardStats (db : DB) (todayStart : Nat) : Stats :=
  let todaysSales := getTodaysSales db todayStart
  let lowStockMeds := getLowStockMedicines db 5
  { totalMedicines := db.medicines.length
    totalItems := db.medicines.foldl (fun sum m => sum + m.quantity) 0
    totalStockValue := db.medicines.foldl (fun sum m => sum + m.price * m.quantity) 0
    todaysSalesCount := todaysSales.length
    todaysRevenue := todaysSales.foldl (fun sum s => sum + s.totalPrice) 0
    lowStockCount := lowStockMeds.length
    lowStockItems := lowStockMeds }

/-- The argument object of `updateMedicine`; `none` means the field is not
supplied.  A supplied falsy value is `some ""` for a string field and
`some 0` for a numeric field. -/
structure Updates where
  name : Option String := none
  price : Option ℚ := none
  quantity : Option ℤ := none
  expiryDate : Option String := none
deriving DecidableEq, Repr

/-- JS truthiness of an optional string: an absent or empty string is falsy. -/
def truthyStr : Option String → Bool
  | some s => s != ""
  | none => false

/-- JS truthiness of an optional rational: absent or `0` is falsy. -/
def truthyRat : Option ℚ → Bool
  | some q => q != 0
  | none => false

/-- JS truthiness of an optional integer: absent or `0` is falsy. -/
def truthyInt : Option ℤ → Bool
  | some z => z != 0
  | none => false

/-- The object literal `{...updates, price: updates.price ? parseFloat(...)
: undefined, quantity: updates.quantity ? parseInt(...) : undefined}` passed
to `db.medicines.update`.  `none` in `price`/`quantity` stands for the
explicit `undefined`; the spread passes all other supplied fields through
unfiltered. -/
structure UpdateDoc where
  name : Option String
  price : Option ℚ
  quantity : Option ℤ
  expiryDate : Option String
deriving DecidableEq, Repr

/-- Builds the update document exactly as the object literal does. -/
def updateDoc (u : Updates) : UpdateDoc :=
  { name := u.name
    expiryDate := u.expiryDate
    price := if truthyRat u.price then u.price else none
    quantity := if truthyInt u.quantity then u.quantity else none }

/-- A `medicines` row as IndexedDB actually stores it after an update: any
property other than the primary key can have been deleted (`none`).  A fresh
row, as written by `addMedicine` and read by `createSale`, has every field
present. -/
structure StoredRow where
  id : Nat
  name : Option String
  price : Option ℚ
  quantity : Option ℤ
  expiryDate : Option String
  createdAt : Option String
deriving DecidableEq, Repr

/-- A fresh row viewed as a stored row: every property present. -/
def toStored (m : Medicine) : StoredRow :=
  { id := m.id, name := some m.name, price := some m.price,
    quantity := some m.quantity, expiryDate := some m.expiryDate,
    createdAt := some m.createdAt }

/-- Applies the update document with the semantics of Dexie's
`Table.update` (`setByKeyPath`): a key present with a value sets the
property, and a key present with the value `undefined` DELETES the stored
property.  The `price` and `quantity` keys are always present in the
document (the object literal writes them explicitly), so `d.price` /
`d.quantity` replace the stored properties outright — `none` deletes them;
the spread-passed keys are present only when supplied, so `none` there means
the key is absent and the stored property is untouched. -/
def applyDoc (r : StoredRow) (d : UpdateDoc) : StoredRow :=
  { r with
    name := match d.name with
      | some v => some v
      | none => r.name
    expiryDate := match d.expiryDate with
      | some v => some v
      | none => r.expiryDate
    price := d.price
    quantity := d.quantity }

/-- `updateMedicine(id, updates)` of `src/db/db.js`: the resulting contents
of the `medicines` table, as stored rows. -/
def updateMedicine (db : DB) (id : Nat) (u : Updates) : List StoredRow :=
  db.medicines.map
    (fun m => if m.id == id then applyDoc (toStored m) (updateDoc u) else toStored m)

end Dexie

namespace Supa

/-- A row of the `medicines` table of the hosted store, with the V2 fields of
the Supabase schema (camelCase as mapped by the db layer). -/
structure Medicine where
  id : Nat
  name : String
  brandName : Option String := none
  genericName : Option String := none
  category : String := "Tablet"
  batchNumber : Option String := none
  purchasePrice : ℚ := 0
  sellingPrice : ℚ
  quantity : ℤ
  expiryDate : String := ""
  supplierId : Option Nat := none
deriving DecidableEq, Repr

/-- A row of the `sales` table of the hosted store
(`medicine_id` nullable, `medicine_name`, `quantity_sold`, `total_price`,
`seller_id`, `sale_date`). -/
structure Sale where
  id : Nat
  medicineId : Option Nat
  medicineName : String
  quantitySold : ℤ
  totalPrice : ℚ
  sellerId : String
  saleDate : Nat
deriving DecidableEq, Repr

/-- The hosted database state: both tables plus the id counter the server
assigns to inserted sales. -/
structure DB where
  medicines : List Medicine
  sales : List Sale
  nextSaleId : Nat := 1
deriving DecidableEq, Repr

/-- The row with the given primary key. -/
def findMedicine (db : DB) (id : Nat) : Option Medicine :=
  db.medicines.find? (fun m => m.id == id)

/-- Modelled from the spec: the server-side `process_sale` stored procedure.
Its SQL (`fix_pos_rpc.sql`) is not part of the repository sources; per the
spec the whole read-check-decrement-append sequence runs as a single
server-side transaction that validates the quantity (precondition 1,
`InvalidQuantity`), the item's existence (`ItemNotFound`) and the available
stock (`InsufficientStock` reporting the available quantity), then decrements
the stock, computes `totalPrice = selling_price * quantity` and appends the
sale row stamped with the seller. -/
def processSale (db : DB) (medicineId : Nat) (quantity : ℤ) (sellerId : String)
    (now : Nat) : Except SaleError SaleData × DB :=
  if quantity < 1 then
    (Except.error SaleError.invalidQuantity, db)
  else
    match findMedicine db medicineId with
    | none => (Except.error SaleError.medicineNotFound, db)
    | some medicine =>
      if medicine.quantity < quantity then
        (Except.error (SaleError.insufficientStock medicine.quantity quantity), db)
      else
        let totalPrice : ℚ := medicine.sellingPrice * (quantity : ℚ)
        let newQuantity : ℤ := medicine.quantity - quantity
        let sale : Sale :=
          { id := db.nextSaleId, medicineId := some medicineId,
            medicineName := medicine.name, quantitySold := quantity,
            totalPrice := totalPrice, sellerId := sellerId, saleDate := now }
        (Except.ok
          { saleId := db.nextSaleId, medicineName := medicine.name,
            quantitySold := quantity, totalPrice := totalPrice,
            remainingStock := newQuantity },
         { medicines := db.medicines.map
             (fun m => if m.id == medicineId then { m with quantity := newQuantity } else m)
           sales := db.sales ++ [sale]
           nextSaleId := db.nextSaleId + 1 })

/-- `createSale(medicineId, quantity)` of the Supabase db layer: it requires
an authenticated user (else it throws, caught into a failure value), invokes
the `process_sale` RPC, and converts an unsuccessful RPC payload into a
failure value.  `user` is the authenticated user id, if any. -/
def createSale (db : DB) (user : Option String) (medicineId : Nat)
    (quantity : ℤ) (now : Nat) : Except SaleError SaleData × DB :=
  match user with
  | none => (Except.error SaleError.notAuthenticated, db)
  | some uid => processSale db medicineId quantity uid now

/-- The argument of `createCustomSale` (`itemDetails`). -/
structure CustomItem where
  name : String
  quantity : ℤ
  totalPrice : ℚ
deriving DecidableEq, Repr

/-- The payload returned by a successful `createCustomSale`. -/
structure CustomSaleData where
  medicineName : String
  quantitySold : ℤ
  totalPrice : ℚ
deriving DecidableEq, Repr

/-- `createCustomSale(itemDetails)` of the Supabase db layer: inserts one row
into `sales` with no `medicine_id` (hence `null`), carrying the supplied
name, quantity and total price, stamped with the authenticated user.  If no
user is present the dereference of `user.id` throws (caught into a failure
value) before the insert; `insertFails` injects a failing insert.  The
`medicines` table is never touched. -/
def createCustomSale (db : DB) (user : Option String) (item : CustomItem)
    (now : Nat) (insertFails : Bool) : Except SaleError CustomSaleData × DB :=
  match user with
  | none => (Except.error SaleError.notAuthenticated, db)
  | some uid =>
    if insertFails then
      (Except.error SaleError.infraFailure, db)
    else
      let sale : Sale :=
        { id := db.nextSaleId, medicineId := none,
          medicineName := item.name, quantitySold := item.quantity,
          totalPrice := item.totalPrice, sellerId := uid, saleDate := now }
      (Except.ok
        { medicineName := sale.medicineName, quantitySold := sale.quantitySold,
          totalPrice := sale.totalPrice },
       { db with sales := db.sales ++ [sale], nextSaleId := db.nextSaleId + 1 })

/-- `getTodaysSales()`: rows with `sale_date >= todayStart`. -/
def getTodaysSales (db : DB) (todayStart : Nat) : List Sale :=
  db.sales.filter (fun s => decide (todayStart ≤ s.saleDate))

/-- The dashboard payload of the hosted variant. -/
structure Stats where
  totalMedicines : Nat
  totalItems : ℤ
  totalStockValue : ℚ
  potentialRevenue : ℚ
  todaysSalesCount : Nat
  todaysRevenue : ℚ
  lowStockCount : Nat
  lowStockItems : List Medicine
deriving DecidableEq, Repr

/-- `getDashboardStats()` of the Supabase db layer.  Note the low-stock
filter is `m.quantity < 10`. -/
def getDashboardStats (db : DB) (todayStart : Nat) : Stats :=
  let todaysSales := getTodaysSales db todayStart
  let lowStockMeds := db.medicines.filter (fun m => decide (m.quantity < 10))
  { totalMedicines := db.medicines.length
    totalItems := db.medicines.foldl (fun sum m => sum + m.quantity) 0
    totalStockValue := db.medicines.foldl (fun sum m => sum + m.purchasePrice * m.quantity) 0
    potentialRevenue := db.medicines.foldl (fun sum m => sum + m.sellingPrice * m.quantity) 0
    todaysSalesCount := todaysSales.length
    todaysRevenue := todaysSales.foldl (fun sum s => sum + s.totalPrice) 0
    lowStockCount := lowStockMeds.length
    lowStockItems := lowStockMeds }

/-- The argument object of the hosted `updateMedicine`; `none` means the
field is not supplied. -/
structure Updates where
  name : Option String := none
  brandName : Option String := none
  genericName : Option String := none
  category : Option String := none
  batchNumber : Option String := none
  purchasePrice : Option ℚ := none
  sellingPrice : Option ℚ := none
  quantity : Option ℤ := none
  expiryDate : Option String := none
  supplierId : Option Nat := none
deriving DecidableEq, Repr

/-- JS truthiness of an optional id: absent or `0` is falsy. -/
def truthyNat : Option Nat → Bool
  | some n => n != 0
  | none => false

/-- The `dbUpdates` object of the hosted `updateMedicine`: each field is
added only when the supplied value is truthy (`if (updates.x) dbUpdates.x =
...`); an omitted key is `none`. -/
structure UpdateDoc where
  name : Option String
  brandName : Option String
  genericName : Option String
  category : Option String
  batchNumber : Option String
  purchasePrice : Option ℚ
  sellingPrice : Option ℚ
  quantity : Option ℤ
  expiryDate : Option String
  supplierId : Option Nat
deriving DecidableEq, Repr

/-- Builds `dbUpdates` exactly as the chain of truthiness guards does. -/
def updateDoc (u : Updates) : UpdateDoc :=
  { name := if Dexie.truthyStr u.name then u.name else none
    brandName := if Dexie.truthyStr u.brandName then u.brandName else none
    genericName := if Dexie.truthyStr u.genericName then u.genericName else none
    category := if Dexie.truthyStr u.category then u.category else none
    batchNumber := if Dexie.truthyStr u.batchNumber then u.batchNumber else none
    purchasePrice := if Dexie.truthyRat u.purchasePrice then u.purchasePrice else none
    sellingPrice := if Dexie.truthyRat u.sellingPrice then u.sellingPrice else none
    quantity := if Dexie.truthyInt u.quantity then u.quantity else none
    expiryDate := if Dexie.truthyStr u.expiryDate then u.expiryDate else none
    supplierId := if truthyNat u.supplierId then u.supplierId else none }

/-- The server applies exactly the keys present in the update document; keys
absent from it leave the stored column unchanged. -/
def applyDoc (m : Medicine) (d : UpdateDoc) : Medicine :=
  { m with
    name := d.name.getD m.name
    brandName := if d.brandName.isSome then d.brandName else m.brandName
    genericName := if d.genericName.isSome then d.genericName else m.genericName
    category := d.category.getD m.category
    batchNumber := if d.batchNumber.isSome then d.batchNumber else m.batchNumber
    purchasePrice := d.purchasePrice.getD m.purchasePrice
    sellingPrice := d.sellingPrice.getD m.sellingPrice
    quantity := d.quantity.getD m.quantity
    expiryDate := d.expiryDate.getD m.expiryDate
    supplierId := if d.supplierId.isSome then d.supplierId else m.supplierId }

/-- `updateMedicine(id, updates)` of the Supabase db layer. -/
def updateMedicine (db : DB) (id : Nat) (u : Updates) : DB :=
  { db with medicines :=
      db.medicines.map (fun m => if m.id == id then applyDoc m (updateDoc u) else m) }

end Supa

namespace Reports

/-- The fields of a displayed sale that the report statistics read. -/
structure RSale where
  medicineName : String
  quantitySold : ℤ
  totalPrice : ℚ
deriving DecidableEq, Repr

/-- One entry of the `byMedicine` accumulator
(`{ name, quantity, revenue }`). -/
structure MedGroup where
  name : String
  quantity : ℤ
  revenue : ℚ
deriving DecidableEq, Repr

/-- The property names a plain object literal inherits from
`Object.prototype` (including the Annex B accessors): `acc[name]` is truthy
for these even when the object has no own key of that name. -/
def objectPrototypeKeys : List String :=
  ["constructor", "hasOwnProperty", "isPrototypeOf", "propertyIsEnumerable",
   "toLocaleString", "toString", "valueOf", "__proto__",
   "__defineGetter__", "__defineSetter__", "__lookupGetter__",
   "__lookupSetter__"]

/-- One step of the `reduce` that groups sales by `medicineName`.  The
accumulator is a plain JS object, so the guard `if (!acc[name])` also sees
the truthy properties inherited from `Object.prototype`: for such a name no
own key is ever created — the `+=` writes land on the inherited object,
which `Object.values` never shows — so the sale vanishes from the grouping.
For ordinary names, a fresh key is created at the end of the object
(insertion order) and an existing key is updated in place. -/
def addToGroups (acc : List MedGroup) (s : RSale) : List MedGroup :=
  if objectPrototypeKeys.contains s.medicineName then
    acc
  else if acc.any (fun g => g.name == s.medicineName) then
    acc.map (fun g =>
      if g.name == s.medicineName then
        { g with quantity := g.quantity + s.quantitySold,
                 revenue := g.revenue + s.totalPrice }
      else g)
  else
    acc ++ [{ name := s.medicineName, quantity := s.quantitySold,
              revenue := s.totalPrice }]

/-- One grouping step as the spec words it: a plain dictionary keyed by the
medicine name, first-appearance order, without the host-object artifacts of
the implementation's accumulator. -/
def addToGroupsSpec (acc : List MedGroup) (s : RSale) : List MedGroup :=
  if acc.any (fun g => g.name == s.medicineName) then
    acc.map (fun g =>
      if g.name == s.medicineName then
        { g with quantity := g.quantity + s.quantitySold,
                 revenue := g.revenue + s.totalPrice }
      else g)
  else
    acc ++ [{ name := s.medicineName, quantity := s.quantitySold,
              revenue := s.totalPrice }]

/-- The medicine-name groups as the spec words them, in first-appearance
order. -/
def byMedicineSpec (sales : List RSale) : List MedGroup :=
  sales.foldl addToGroupsSpec []

/-- The `byMedicine` object, as the list of its entries in key-creation
order. -/
def byMedicine (sales : List RSale) : List MedGroup :=
  sales.foldl addToGroups []

/-- Numeric value of a digit string. -/
def digitsVal (cs : List Char) : Nat :=
  cs.foldl (fun n c => n * 10 + (c.toNat - 48)) 0

/-- Whether a string is a canonical array-index property key in the sense of
the ECMAScript object model: a digit string with no leading zero whose value
is below 2^32 - 1.  Such keys are enumerated before all other string keys,
in ascending numeric order. -/
def isArrayIndex (s : String) : Bool :=
  s.length > 0 && s.toList.all Char.isDigit && (s == "0" || s.front != '0') &&
    digitsVal s.toList < 4294967295

/-- Numeric value of an array-index key. -/
def keyNum (s : String) : Nat :=
  digitsVal s.toList

/-- Insertion into a list kept in ascending `keyNum` order of the names. -/
def insertAscByKey (g : MedGroup) : List MedGroup → List MedGroup
  | [] => [g]
  | h :: t =>
    if keyNum g.name < keyNum h.name then g :: h :: t
    else h :: insertAscByKey g t

/-- `Object.values` under ECMAScript own-property enumeration order:
array-index keys first in ascending numeric order, then the remaining keys
in creation order. -/
def objectValues (l : List MedGroup) : List MedGroup :=
  ((l.filter (fun g => isArrayIndex g.name)).foldr insertAscByKey []) ++
    l.filter (fun g => !isArrayIndex g.name)

/-- One step of the stable descending sort by `revenue`: the element is
placed after every already-placed element whose revenue is at least its own,
as the stable `sort((a, b) => b.revenue - a.revenue)` does. -/
def insertByRevenue (g : MedGroup) : List MedGroup → List MedGroup
  | [] => [g]
  | h :: t =>
    if g.revenue ≤ h.revenue then h :: insertByRevenue g t
    else g :: h :: t

/-- Stable sort by strictly greater revenue first (ties keep their input
order, as ECMAScript's `Array.prototype.sort` is stable). -/
def sortByRevenueDesc (l : List MedGroup) : List MedGroup :=
  l.foldl (fun acc g => insertByRevenue g acc) []

/-- The `topSelling` statistic of `Reports.jsx`:
`Object.values(byMedicine).sort((a, b) => b.revenue - a.revenue).slice(0, 5)`. -/
def topSelling (sales : List RSale) : List MedGroup :=
  (sortByRevenueDesc (objectValues (byMedicine sales))).take 5

/-- The top-selling list as the spec words it: every sale's medicine-name
group, in insertion order of the name's first appearance, stably sorted by
descending revenue, truncated to 5 — written for comparison with the
implementation's `topSelling`, which groups through a JS object (inherited
prototype keys swallow their sales) and enumerates through
`Object.values` (array-index keys are hoisted). -/
def topSellingSpec (sales : List RSale) : List MedGroup :=
  (sortByRevenueDesc (byMedicineSpec sales)).take 5

/-- `totalRevenue` of the report statistics. -/
def totalRevenue (sales : List RSale) : ℚ :=
  sales.foldl (fun sum s => sum + s.totalPrice) 0

/-- `totalItems` of the report statistics. -/
def totalItems (sales : List RSale) : ℤ :=
  sales.foldl (fun sum s => sum + s.quantitySold) 0

end Reports

/-! Concrete states used by the scenario witnesses. -/

/-- Scenario A item: `{ id = 1, name = "Aspirin", unitPrice = 2.50,
quantity = 10 }`. -/
def aspirin : Dexie.Medicine :=
  { id := 1, name := "Aspirin", price := 5 / 2, quantity := 10 }

/-- Inventory holding only the Scenario A item, empty ledger. -/
def dbA : Dexie.DB := { medicines := [aspirin], sales := [], nextSaleId := 1 }

/-- Scenario B item: same as Scenario A but `quantity = 2`. -/
def aspirin2 : Dexie.Medicine := { aspirin with quantity := 2 }

/-- Inventory holding only the Scenario B item. -/
def dbB : Dexie.DB := { medicines := [aspirin2], sales := [], nextSaleId := 1 }

/-- The empty embedded database. -/
def dbEmptyD : Dexie.DB := { medicines := [], sales := [], nextSaleId := 1 }

/-- The empty hosted database. -/
def dbEmptyS : Supa.DB := { medicines := [], sales := [], nextSaleId := 1 }

/-- Scenario A item in the hosted schema. -/
def saspirin : Supa.Medicine :=
  { id := 1, name := "Aspirin", sellingPrice := 5 / 2, quantity := 10 }

/-- Hosted inventory holding only the Scenario A item, empty ledger. -/
def sdbA : Supa.DB := { medicines := [saspirin], sales := [], nextSaleId := 1 }

/-- C1: for every call to `createSale` in either variant that returns a
failure, for any reason (missing item, insufficient stock, missing user, an
injected infrastructure failure at the ledger append), the whole database
state — in particular the item's quantity and the sale ledger — is exactly
what it was before the call; the failure is the `Except.error` value of the
returned pair, never an uncaught exception (the model's return type carries
the failure as a value). -/
theorem createSale_failure_atomic :
    (∀ (db : Dexie.DB) (mid : Nat) (q : ℤ) (now : Nat) (f : Bool) (e : SaleError),
      (Dexie.createSale db mid q now f).1 = Except.error e →
      (Dexie.createSale db mid q now f).2 = db) ∧
    (∀ (db : Supa.DB) (user : Option String) (mid : Nat) (q : ℤ) (now : Nat)
      (e : SaleError),
      (Supa.createSale db user mid q now).1 = Except.error e →
      (Supa.createSale db user mid q now).2 = db) := by
  constructor
  · intro db mid q now f e h
    rcases hf : Dexie.findMedicine db mid with _ | m
    · simp [Dexie.createSale, hf]
    · by_cases hq : m.quantity < q
      · simp [Dexie.createSale, hf, hq]
      · cases f
        · exfalso
          simp [Dexie.createSale, hf, hq] at h
        · simp [Dexie.createSale, hf, hq]
  · intro db user mid q now e h
    cases user with
    | none => simp [Supa.createSale]
    | some uid =>
      by_cases h1 : q < 1
      · simp [Supa.createSale, Supa.processSale, h1]
      · rcases hf : Supa.findMedicine db mid with _ | m
        · simp [Supa.createSale, Supa.processSale, h1, hf]
        · by_cases hq : m.quantity < q
          · simp [Supa.createSale, Supa.processSale, h1, hf, hq]
          · exfalso
            simp [Supa.createSale, Supa.processSale, h1, hf, hq] at h

/-- C1 witness: a failing call on the empty database of each variant leaves
it unchanged. -/
theorem createSale_failure_atomic_witness :
    (Dexie.createSale dbEmptyD 1 1 0 false).2 = dbEmptyD ∧
    (Supa.createSale dbEmptyS (some "u1") 1 1 0).2 = dbEmptyS :=
  ⟨createSale_failure_atomic.1 dbEmptyD 1 1 0 false SaleError.medicineNotFound rfl,
   createSale_failure_atomic.2 dbEmptyS (some "u1") 1 1 0
     SaleError.medicineNotFound rfl⟩

/-- Helper for C2: setting the stock of one item to a nonnegative value
keeps every stock nonnegative. -/
theorem allNonneg_setQuantity (db : Dexie.DB) (mid : Nat) (v : ℤ) (hv : 0 ≤ v)
    (h : Dexie.allNonneg db) :
    ∀ x ∈ (Dexie.setQuantity db mid v).medicines, 0 ≤ x.quantity := by
  intro x hx
  simp only [Dexie.setQuantity, List.mem_map] at hx
  rcases hx with ⟨y, hy, rfl⟩
  split
  · exact hv
  · exact h y hy

/-- Helper for C2: a single `createSale` call of the embedded variant keeps
every stock nonnegative. -/
theorem allNonneg_step (db : Dexie.DB) (mid : Nat) (q : ℤ) (now : Nat)
    (f : Bool) (h : Dexie.allNonneg db) :
    Dexie.allNonneg (Dexie.createSale db mid q now f).2 := by
  rcases hf : Dexie.findMedicine db mid with _ | m
  · simpa [Dexie.createSale, hf] using h
  · by_cases hq : m.quantity < q
    · simpa [Dexie.createSale, hf, hq] using h
    · cases f
      · have hres : (Dexie.createSale db mid q now false).2.medicines =
            (Dexie.setQuantity db mid (m.quantity - q)).medicines := by
          simp [Dexie.createSale, hf, hq]
        intro x hx
        rw [hres] at hx
        exact allNonneg_setQuantity db mid (m.quantity - q) (by omega) h x hx
      · simpa [Dexie.createSale, hf, hq] using h

/-- C2: starting from any state with every stock nonnegative, after any
sequence of `createSale` calls every stock is still nonnegative; since the
theorem holds for every call list, it holds at every observable point (every
prefix of the sequence), and a call that would drive a stock negative is
rejected by the pre-mutation check, leaving the state untouched. -/
theorem runSales_preserves_nonneg (db : Dexie.DB)
    (calls : List (Nat × ℤ × Nat × Bool)) (h : Dexie.allNonneg db) :
    Dexie.allNonneg (Dexie.runSales db calls) := by
  induction calls generalizing db with
  | nil => simpa [Dexie.runSales] using h
  | cons c rest ih =>
    simp only [Dexie.runSales, List.foldl_cons] at *
    exact ih _ (allNonneg_step db c.1 c.2.1 c.2.2.1 c.2.2.2 h)

/-- C2 witness: a concrete sequence (one sale that succeeds, one that is
rejected for insufficient stock) keeps the Scenario A inventory
nonnegative. -/
theorem runSales_preserves_nonneg_witness :
    Dexie.allNonneg dbA ∧
    Dexie.allNonneg (Dexie.runSales dbA [(1, 3, 0, false), (1, 20, 1, false)]) :=
  ⟨by decide, runSales_preserves_nonneg dbA [(1, 3, 0, false), (1, 20, 1, false)]
    (by decide)⟩

/-- C3: a successful embedded-variant sale against an item with prior stock
`m.quantity`, price `m.price` and name `m.name` returns
`remainingStock = m.quantity - q` and `totalPrice = m.price * q`, and appends
exactly one sale record snapshotting the name and unit price, with
`quantitySold = q` and `totalPrice = unitPrice * quantitySold`. -/
theorem createSale_conservation (db : Dexie.DB) (mid : Nat) (q : ℤ) (now : Nat)
    (m : Dexie.Medicine) (hm : Dexie.findMedicine db mid = some m)
    (d : SaleData) (db' : Dexie.DB)
    (h : Dexie.createSale db mid q now false = (Except.ok d, db')) :
    d.remainingStock = m.quantity - q ∧
    d.totalPrice = m.price * q ∧
    d.quantitySold = q ∧
    d.medicineName = m.name ∧
    ∃ s : Dexie.Sale, db'.sales = db.sales ++ [s] ∧
      s.medicineName = m.name ∧ s.unitPrice = m.price ∧ s.quantitySold = q ∧
      s.totalPrice = s.unitPrice * s.quantitySold := by
  by_cases hq : m.quantity < q
  · simp [Dexie.createSale, hm, hq] at h
  · simp only [Dexie.createSale, hm, if_neg hq, Bool.false_eq_true, if_false,
      Prod.mk.injEq] at h
    obtain ⟨h1, h2⟩ := h
    injection h1 with hd
    subst hd
    subst h2
    exact ⟨rfl, rfl, rfl, rfl, ⟨_, rfl, rfl, rfl, rfl, rfl⟩⟩

/-- The data payload returned by the Scenario A sale. -/
def saleDataA : SaleData :=
  { saleId := 1, medicineName := "Aspirin", quantitySold := 3,
    totalPrice := 5 / 2 * ((3 : ℤ) : ℚ), remainingStock := 7 }

/-- C3 witness (Scenario A): selling 3 units of the 2.50-priced, 10-stocked
item succeeds with `remainingStock = 7` and `totalPrice = 7.50`, appending
the matching snapshot record. -/
theorem createSale_conservation_witness :
    (saleDataA.remainingStock = aspirin.quantity - 3 ∧
     saleDataA.totalPrice = aspirin.price * 3 ∧
     saleDataA.quantitySold = 3 ∧
     saleDataA.medicineName = aspirin.name ∧
     ∃ s : Dexie.Sale,
       (Dexie.createSale dbA 1 3 0 false).2.sales = dbA.sales ++ [s] ∧
       s.medicineName = aspirin.name ∧ s.unitPrice = aspirin.price ∧
       s.quantitySold = 3 ∧ s.totalPrice = s.unitPrice * s.quantitySold) ∧
    saleDataA.remainingStock = 7 ∧ saleDataA.totalPrice = 15 / 2 :=
  ⟨createSale_conservation dbA 1 3 0 aspirin rfl
     saleDataA (Dexie.createSale dbA 1 3 0 false).2 rfl,
   rfl, by norm_num [saleDataA]⟩

/-- C4: whenever the item exists and its stock is below the requested
quantity, the embedded-variant sale fails with the insufficient-stock error
reporting the available quantity, and the whole state (hence the item's
quantity) is unchanged. -/
theorem createSale_insufficient (db : Dexie.DB) (mid : Nat) (q : ℤ) (now : Nat)
    (f : Bool) (m : Dexie.Medicine) (hm : Dexie.findMedicine db mid = some m)
    (hq : m.quantity < q) :
    Dexie.createSale db mid q now f =
      (Except.error (SaleError.insufficientStock m.quantity q), db) := by
  simp [Dexie.createSale, hm, hq]

/-- C4 witness (Scenario B): selling 5 units of the 2-stocked item fails
reporting `available = 2` and leaves the state (stock still 2) unchanged. -/
theorem createSale_insufficient_witness :
    Dexie.findMedicine dbB 1 = some aspirin2 ∧
    aspirin2.quantity < 5 ∧
    Dexie.createSale dbB 1 5 0 false =
      (Except.error (SaleError.insufficientStock 2 5), dbB) :=
  ⟨rfl, by decide, createSale_insufficient dbB 1 5 0 false aspirin2
    rfl (by decide)⟩

/-- C5 counterexample: the embedded `createSale` performs no quantity
validation.  Called with quantity `0` — which is not an integer ≥ 1 — on the
Scenario A state, it does not fail with an invalid-quantity error: it
succeeds and a sale record is appended to the ledger. -/
theorem createSale_skips_quantity_validation_cex :
    (Dexie.createSale dbA 1 0 0 false).1 =
      Except.ok { saleId := 1, medicineName := "Aspirin", quantitySold := 0,
                  totalPrice := 5 / 2 * ((0 : ℤ) : ℚ), remainingStock := 10 } ∧
    (Dexie.createSale dbA 1 0 0 false).2.sales.length = dbA.sales.length + 1 ∧
    (5 / 2 * ((0 : ℤ) : ℚ) : ℚ) = 0 :=
  ⟨rfl, rfl, by norm_num⟩

/-- C5 amended: the embedded variant's `createSale` has no `InvalidQuantity`
check at all.  Whenever the item exists with nonnegative stock and the
requested quantity is ≤ 0, the call succeeds: it appends a sale record with
`quantitySold` equal to the given quantity and sets the stock to
`quantity0 - quantity` (unchanged for quantity 0, increased for a negative
quantity).  (The networked variant delegates validation to the server-side
RPC, which is not part of the repository sources.) -/
theorem createSale_accepts_nonpositive_quantity (db : Dexie.DB) (mid : Nat)
    (q : ℤ) (now : Nat) (m : Dexie.Medicine)
    (hm : Dexie.findMedicine db mid = some m) (hq : q ≤ 0)
    (h0 : 0 ≤ m.quantity) :
    Dexie.createSale db mid q now false =
      (Except.ok { saleId := db.nextSaleId, medicineName := m.name,
                   quantitySold := q, totalPrice := m.price * q,
                   remainingStock := m.quantity - q },
       { medicines := (Dexie.setQuantity db mid (m.quantity - q)).medicines,
         sales := db.sales ++
           [{ id := db.nextSaleId, medicineId := some mid,
              medicineName := m.name, quantitySold := q, unitPrice := m.price,
              totalPrice := m.price * q, saleDate := now }],
         nextSaleId := db.nextSaleId + 1 }) := by
  have hlt : ¬ m.quantity < q := by omega
  simp [Dexie.createSale, hm, hlt]

/-- C5 amended witness: selling quantity `-5` on the Scenario A state
succeeds and raises the stock from 10 to 15. -/
theorem createSale_accepts_nonpositive_quantity_witness :
    (Dexie.createSale dbA 1 (-5) 0 false =
      (Except.ok { saleId := dbA.nextSaleId, medicineName := aspirin.name,
                   quantitySold := -5, totalPrice := aspirin.price * (-5),
                   remainingStock := aspirin.quantity - (-5) },
       { medicines := (Dexie.setQuantity dbA 1 (aspirin.quantity - (-5))).medicines,
         sales := dbA.sales ++
           [{ id := dbA.nextSaleId, medicineId := some 1,
              medicineName := aspirin.name, quantitySold := -5,
              unitPrice := aspirin.price, totalPrice := aspirin.price * (-5),
              saleDate := 0 }],
         nextSaleId := dbA.nextSaleId + 1 })) ∧
    aspirin.quantity - (-5) = 15 :=
  ⟨createSale_accepts_nonpositive_quantity dbA 1 (-5) 0 aspirin rfl (by decide)
     (by decide), by decide⟩

/-- Helper for C6: looking an item up after the stock-setting map returns
the item with the new stock (embedded schema). -/
theorem find_set_dexie (l : List Dexie.Medicine) (mid : Nat) (v : ℤ) :
    (l.map (fun m => if m.id == mid then { m with quantity := v } else m)).find?
        (fun m => m.id == mid) =
      (l.find? (fun m => m.id == mid)).map (fun m => { m with quantity := v }) := by
  induction l with
  | nil => rfl
  | cons a t ih =>
    simp only [List.map_cons, List.find?_cons]
    by_cases h : a.id = mid
    · have hb : (a.id == mid) = true := by simpa using h
      simp [h, hb]
    · have hb : (a.id == mid) = false := by simpa using h
      simp only [hb, Bool.false_eq_true, if_false]
      exact ih

/-- Helper for C6: looking an item up after the stock-setting map returns
the item with the new stock (hosted schema). -/
theorem find_set_supa (l : List Supa.Medicine) (mid : Nat) (v : ℤ) :
    (l.map (fun m => if m.id == mid then { m with quantity := v } else m)).find?
        (fun m => m.id == mid) =
      (l.find? (fun m => m.id == mid)).map (fun m => { m with quantity := v }) := by
  induction l with
  | nil => rfl
  | cons a t ih =>
    simp only [List.map_cons, List.find?_cons]
    by_cases h : a.id = mid
    · have hb : (a.id == mid) = true := by simpa using h
      simp [h, hb]
    · have hb : (a.id == mid) = false := by simpa using h
      simp only [hb, Bool.false_eq_true, if_false]
      exact ih

/-- C6: both variants serialize concurrent sales — the embedded store runs
each `createSale` body as one queued read-write transaction, and the hosted
variant runs the whole check-decrement-append inside the server-side
`process_sale` transaction (modelled from the spec, its SQL being outside
the repository) — so two concurrent sales of the last unit execute as one
serial order.  In that order the first call succeeds with
`remainingStock = 0`, the second fails with `InsufficientStock` reporting
0 available, and the final stock is 0. -/
theorem lastUnit_exactlyOne (db : Dexie.DB) (mid now1 now2 : Nat)
    (m : Dexie.Medicine) (hm : Dexie.findMedicine db mid = some m)
    (h1 : m.quantity = 1)
    (sdb : Supa.DB) (smid snow1 snow2 : Nat) (u1 u2 : String)
    (sm : Supa.Medicine) (hsm : Supa.findMedicine sdb smid = some sm)
    (hs1 : sm.quantity = 1) :
    ((∃ d : SaleData, (Dexie.createSale db mid 1 now1 false).1 = Except.ok d ∧
        d.remainingStock = 0) ∧
     (Dexie.createSale (Dexie.createSale db mid 1 now1 false).2 mid 1 now2 false).1 =
        Except.error (SaleError.insufficientStock 0 1) ∧
     (Dexie.findMedicine
         (Dexie.createSale (Dexie.createSale db mid 1 now1 false).2 mid 1 now2 false).2
         mid).map Dexie.Medicine.quantity = some 0) ∧
    ((∃ d : SaleData, (Supa.createSale sdb (some u1) smid 1 snow1).1 = Except.ok d ∧
        d.remainingStock = 0) ∧
     (Supa.createSale (Supa.createSale sdb (some u1) smid 1 snow1).2 (some u2)
        smid 1 snow2).1 =
        Except.error (SaleError.insufficientStock 0 1) ∧
     (Supa.findMedicine
         (Supa.createSale (Supa.createSale sdb (some u1) smid 1 snow1).2 (some u2)
            smid 1 snow2).2
         smid).map Supa.Medicine.quantity = some 0) := by
  constructor
  · have hq : ¬ m.quantity < 1 := by omega
    have e1 : (Dexie.createSale db mid 1 now1 false).1 = Except.ok
        { saleId := db.nextSaleId, medicineName := m.name, quantitySold := 1,
          totalPrice := m.price * ((1 : ℤ) : ℚ),
          remainingStock := m.quantity - 1 } := by
      simp [Dexie.createSale, hm, hq]
    have hmeds : (Dexie.createSale db mid 1 now1 false).2.medicines =
        db.medicines.map
          (fun x => if x.id == mid then { x with quantity := m.quantity - 1 } else x) := by
      simp [Dexie.createSale, hm, hq, Dexie.setQuantity]
    set db1 := (Dexie.createSale db mid 1 now1 false).2 with hdb1
    have f1 : Dexie.findMedicine db1 mid = some { m with quantity := 0 } := by
      unfold Dexie.findMedicine
      rw [hmeds, find_set_dexie]
      unfold Dexie.findMedicine at hm
      rw [hm, h1]
      rfl
    have e2 : Dexie.createSale db1 mid 1 now2 false =
        (Except.error (SaleError.insufficientStock 0 1), db1) := by
      simp [Dexie.createSale, f1]
    refine ⟨⟨_, e1, ?_⟩, ?_, ?_⟩
    · show m.quantity - 1 = 0
      omega
    · rw [e2]
    · rw [e2]
      rw [f1]
      rfl
  · have hq : ¬ sm.quantity < 1 := by omega
    have hq1 : ¬ (1 : ℤ) < 1 := by omega
    have e1 : (Supa.createSale sdb (some u1) smid 1 snow1).1 = Except.ok
        { saleId := sdb.nextSaleId, medicineName := sm.name, quantitySold := 1,
          totalPrice := sm.sellingPrice * ((1 : ℤ) : ℚ),
          remainingStock := sm.quantity - 1 } := by
      simp [Supa.createSale, Supa.processSale, hsm, hq, hq1]
    have hmeds : (Supa.createSale sdb (some u1) smid 1 snow1).2.medicines =
        sdb.medicines.map
          (fun x => if x.id == smid then { x with quantity := sm.quantity - 1 } else x) := by
      simp [Supa.createSale, Supa.processSale, hsm, hq, hq1]
    set sdb1 := (Supa.createSale sdb (some u1) smid 1 snow1).2 with hsdb1
    have f1 : Supa.findMedicine sdb1 smid = some { sm with quantity := 0 } := by
      unfold Supa.findMedicine
      rw [hmeds, find_set_supa]
      unfold Supa.findMedicine at hsm
      rw [hsm, hs1]
      rfl
    have e2 : Supa.createSale sdb1 (some u2) smid 1 snow2 =
        (Except.error (SaleError.insufficientStock 0 1), sdb1) := by
      simp [Supa.createSale, Supa.processSale, f1, hq1]
    refine ⟨⟨_, e1, ?_⟩, ?_, ?_⟩
    · show sm.quantity - 1 = 0
      omega
    · rw [e2]
    · rw [e2]
      rw [f1]
      rfl

/-- The last-unit states for the C6 witness. -/
def dbLast : Dexie.DB :=
  { medicines := [{ aspirin with quantity := 1 }], sales := [], nextSaleId := 1 }

/-- The last-unit hosted state for the C6 witness. -/
def sdbLast : Supa.DB :=
  { medicines := [{ saspirin with quantity := 1 }], sales := [], nextSaleId := 1 }

/-- C6 witness: on a concrete one-unit item, in both variants the first of
the two serialized sales succeeds, the second reports insufficient stock
with 0 available, and the final stock is 0. -/
theorem lastUnit_exactlyOne_witness :
    ((∃ d : SaleData, (Dexie.createSale dbLast 1 1 0 false).1 = Except.ok d ∧
        d.remainingStock = 0) ∧
     (Dexie.createSale (Dexie.createSale dbLast 1 1 0 false).2 1 1 1 false).1 =
        Except.error (SaleError.insufficientStock 0 1) ∧
     (Dexie.findMedicine
         (Dexie.createSale (Dexie.createSale dbLast 1 1 0 false).2 1 1 1 false).2
         1).map Dexie.Medicine.quantity = some 0) ∧
    ((∃ d : SaleData, (Supa.createSale sdbLast (some "u1") 1 1 0).1 = Except.ok d ∧
        d.remainingStock = 0) ∧
     (Supa.createSale (Supa.createSale sdbLast (some "u1") 1 1 0).2 (some "u2")
        1 1 1).1 =
        Except.error (SaleError.insufficientStock 0 1) ∧
     (Supa.findMedicine
         (Supa.createSale (Supa.createSale sdbLast (some "u1") 1 1 0).2 (some "u2")
            1 1 1).2
         1).map Supa.Medicine.quantity = some 0) :=
  lastUnit_exactlyOne dbLast 1 0 1 { aspirin with quantity := 1 } rfl rfl
    sdbLast 1 0 1 "u1" "u2" { saspirin with quantity := 1 } rfl rfl

/-- C7: `createCustomSale` never reads or writes the inventory — the
`medicines` table of the resulting state is the input's for every call —
and a successful call appends exactly one ledger row with no inventory
reference (`medicine_id = null`) carrying the supplied name, quantity and
total price unchanged, which are also returned unchanged; a failing call
leaves the whole state unchanged. -/
theorem createCustomSale_frame (db : Supa.DB) (user : Option String)
    (item : Supa.CustomItem) (now : Nat) (f : Bool) :
    (Supa.createCustomSale db user item now f).2.medicines = db.medicines ∧
    (∀ d, (Supa.createCustomSale db user item now f).1 = Except.ok d →
      d = { medicineName := item.name, quantitySold := item.quantity,
            totalPrice := item.totalPrice } ∧
      ∃ uid, user = some uid ∧
        (Supa.createCustomSale db user item now f).2.sales =
          db.sales ++
            [{ id := db.nextSaleId, medicineId := none,
               medicineName := item.name, quantitySold := item.quantity,
               totalPrice := item.totalPrice, sellerId := uid,
               saleDate := now }]) ∧
    (∀ e, (Supa.createCustomSale db user item now f).1 = Except.error e →
      (Supa.createCustomSale db user item now f).2 = db) := by
  cases user with
  | none => simp [Supa.createCustomSale]
  | some uid =>
    cases f with
    | true => simp [Supa.createCustomSale]
    | false =>
      refine ⟨rfl, ?_, ?_⟩
      · intro d hd
        refine ⟨?_, uid, rfl, rfl⟩
        have := Except.ok.inj hd
        exact this.symm ▸ rfl
      · intro e he
        exact absurd he (by simp [Supa.createCustomSale])

/-- C7 witness (Scenario C): `sellCustom("Consultation", 1, 20.00)` by user
`u1` touches no inventory row and appends the null-referenced record with
`totalPrice = 20`. -/
theorem createCustomSale_frame_witness :
    (Supa.createCustomSale sdbA (some "u1") ⟨"Consultation", 1, 20⟩ 5 false).2.medicines =
      sdbA.medicines ∧
    (({ medicineName := "Consultation", quantitySold := 1, totalPrice := 20 }
        : Supa.CustomSaleData) =
      { medicineName := "Consultation", quantitySold := 1, totalPrice := 20 } ∧
     ∃ uid, (some "u1" : Option String) = some uid ∧
       (Supa.createCustomSale sdbA (some "u1") ⟨"Consultation", 1, 20⟩ 5 false).2.sales =
         sdbA.sales ++
           [{ id := sdbA.nextSaleId, medicineId := none,
              medicineName := "Consultation", quantitySold := 1,
              totalPrice := 20, sellerId := uid, saleDate := 5 }]) :=
  ⟨(createCustomSale_frame sdbA (some "u1") ⟨"Consultation", 1, 20⟩ 5 false).1,
   (createCustomSale_frame sdbA (some "u1") ⟨"Consultation", 1, 20⟩ 5 false).2.1
     { medicineName := "Consultation", quantitySold := 1, totalPrice := 20 } rfl⟩

/-- The ledger row written by the Scenario A sale (embedded schema). -/
def saleA : Dexie.Sale :=
  { id := 1, medicineId := some 1, medicineName := "Aspirin",
    quantitySold := 3, unitPrice := 5 / 2, totalPrice := 15 / 2, saleDate := 0 }

/-- The embedded state after Scenario A: the item at stock 7, one ledger
row worth 7.50, today. -/
def dbAfterA : Dexie.DB :=
  { medicines := [{ aspirin with quantity := 7 }], sales := [saleA],
    nextSaleId := 2 }

/-- The Scenario A item at stock 7 in the hosted schema. -/
def saspirin7 : Supa.Medicine := { saspirin with quantity := 7 }

/-- The ledger row written by the Scenario A sale (hosted schema). -/
def ssaleA : Supa.Sale :=
  { id := 1, medicineId := some 1, medicineName := "Aspirin",
    quantitySold := 3, totalPrice := 15 / 2, sellerId := "u1", saleDate := 0 }

/-- The hosted state after Scenario A. -/
def sdbAfterA : Supa.DB :=
  { medicines := [saspirin7], sales := [ssaleA], nextSaleId := 2 }

/-- C8 counterexample: the two variants do not share a low-stock threshold.
On the state after Scenario A (item at stock 7), the embedded
`getDashboardStats` — whose low-stock query runs with threshold 5 — returns
an empty `lowStockItems`, so the quantity-7 item does not appear in it, while
the hosted variant (threshold 10) does list it; today's revenue is 7.50 as
claimed. -/
theorem dashboard_threshold_cex :
    (Dexie.getDashboardStats dbAfterA 0).lowStockItems = [] ∧
    (Supa.getDashboardStats sdbAfterA 0).lowStockItems = [saspirin7] ∧
    (Dexie.getDashboardStats dbAfterA 0).todaysRevenue = 15 / 2 := by
  refine ⟨rfl, rfl, ?_⟩
  simp [Dexie.getDashboardStats, Dexie.getTodaysSales, dbAfterA, saleA]

/-- Helper for C8: the running-sum fold of the embedded dashboard equals the
list sum. -/
theorem foldl_totalPrice_dexie (l : List Dexie.Sale) (a : ℚ) :
    l.foldl (fun sum s => sum + s.totalPrice) a =
      a + (l.map Dexie.Sale.totalPrice).sum := by
  induction l generalizing a with
  | nil => simp
  | cons s t ih => simp [ih, add_assoc]

/-- Helper for C8: the running-sum fold of the hosted dashboard equals the
list sum. -/
theorem foldl_totalPrice_supa (l : List Supa.Sale) (a : ℚ) :
    l.foldl (fun sum s => sum + s.totalPrice) a =
      a + (l.map Supa.Sale.totalPrice).sum := by
  induction l generalizing a with
  | nil => simp
  | cons s t ih => simp [ih, add_assoc]

/-- C8 amended: each variant classifies exactly the items with stock below
its own fixed threshold as low-stock — 5 in the embedded variant, 10 in the
hosted variant; the two variants do not use one shared threshold.  In both,
`todaysRevenue` is the sum of `totalPrice` over today's sales.  After
Scenario A the quantity-7 item appears in `lowStockItems` of the hosted
variant only, and today's revenue is 7.50 in both. -/
theorem dashboard_stats_amended :
    (∀ (db : Dexie.DB) (t : Nat) (m : Dexie.Medicine),
      m ∈ (Dexie.getDashboardStats db t).lowStockItems ↔
        m ∈ db.medicines ∧ m.quantity < 5) ∧
    (∀ (db : Supa.DB) (t : Nat) (m : Supa.Medicine),
      m ∈ (Supa.getDashboardStats db t).lowStockItems ↔
        m ∈ db.medicines ∧ m.quantity < 10) ∧
    (∀ (db : Dexie.DB) (t : Nat),
      (Dexie.getDashboardStats db t).todaysRevenue =
        ((db.sales.filter (fun s => decide (t ≤ s.saleDate))).map
          Dexie.Sale.totalPrice).sum) ∧
    (∀ (db : Supa.DB) (t : Nat),
      (Supa.getDashboardStats db t).todaysRevenue =
        ((db.sales.filter (fun s => decide (t ≤ s.saleDate))).map
          Supa.Sale.totalPrice).sum) ∧
    ((Dexie.getDashboardStats dbAfterA 0).lowStockItems = [] ∧
     (Supa.getDashboardStats sdbAfterA 0).lowStockItems = [saspirin7] ∧
     (Dexie.getDashboardStats dbAfterA 0).todaysRevenue = 15 / 2 ∧
     (Supa.getDashboardStats sdbAfterA 0).todaysRevenue = 15 / 2) := by
  refine ⟨?_, ?_, ?_, ?_, rfl, rfl, ?_, ?_⟩
  · intro db t m
    simp [Dexie.getDashboardStats, Dexie.getLowStockMedicines, List.mem_filter]
  · intro db t m
    simp [Supa.getDashboardStats, List.mem_filter]
  · intro db t
    simp [Dexie.getDashboardStats, Dexie.getTodaysSales, foldl_totalPrice_dexie]
  · intro db t
    simp [Supa.getDashboardStats, Supa.getTodaysSales, foldl_totalPrice_supa]
  · simp [Dexie.getDashboardStats, Dexie.getTodaysSales, dbAfterA, saleA]
  · simp [Supa.getDashboardStats, Supa.getTodaysSales, sdbAfterA, ssaleA]

/-- Two sales with equal revenue whose second name is an array-index string. -/
def tieSales : List Reports.RSale :=
  [{ medicineName := "b", quantitySold := 1, totalPrice := 5 },
   { medicineName := "0", quantitySold := 1, totalPrice := 5 }]

/-- C9 counterexample: on two equal-revenue sales named "b" then "0", the
displayed top-selling list puts "0" first — JS object enumeration hoists
array-index keys such as "0" ahead of all other keys — although the first
appearance order is "b" before "0", so the revenue tie is not broken by
insertion order of first appearance as claimed. -/
theorem topSelling_tie_order_cex :
    (Reports.topSelling tieSales).map Reports.MedGroup.name = ["0", "b"] ∧
    (Reports.topSellingSpec tieSales).map Reports.MedGroup.name = ["b", "0"] ∧
    Reports.topSelling tieSales ≠ Reports.topSellingSpec tieSales := by
  refine ⟨rfl, rfl, fun h => ?_⟩
  have h2 := congrArg (fun l => l.map Reports.MedGroup.name) h
  exact absurd h2 (by decide)

/-- Helper for C9: one grouping step creates no group whose name is an
array-index string if neither the accumulator nor the sale has one. -/
theorem addToGroups_arrayIndex_free (acc : List Reports.MedGroup)
    (s : Reports.RSale)
    (hacc : ∀ g ∈ acc, Reports.isArrayIndex g.name = false)
    (hs : Reports.isArrayIndex s.medicineName = false) :
    ∀ g ∈ Reports.addToGroups acc s, Reports.isArrayIndex g.name = false := by
  intro g hg
  unfold Reports.addToGroups at hg
  split at hg
  · exact hacc g hg
  · split at hg
    · rcases List.mem_map.1 hg with ⟨y, hy, rfl⟩
      split
      · exact hacc y hy
      · exact hacc y hy
    · rcases List.mem_append.1 hg with h | h
      · exact hacc g h
      · rcases List.mem_singleton.1 h with rfl
        exact hs

/-- Helper for C9: on a sale whose name is not an inherited prototype key,
the implementation's grouping step agrees with the spec's dictionary step. -/
theorem addToGroups_eq_spec (acc : List Reports.MedGroup) (s : Reports.RSale)
    (h : Reports.objectPrototypeKeys.contains s.medicineName = false) :
    Reports.addToGroups acc s = Reports.addToGroupsSpec acc s := by
  unfold Reports.addToGroups Reports.addToGroupsSpec
  rw [h]
  simp only [Bool.false_eq_true, if_false]

/-- Helper for C9: grouping sale lists free of prototype-key names agrees
with the spec's dictionary grouping. -/
theorem foldl_groups_eq_spec (sales : List Reports.RSale) :
    ∀ acc : List Reports.MedGroup,
      (∀ s ∈ sales, Reports.objectPrototypeKeys.contains s.medicineName = false) →
      sales.foldl Reports.addToGroups acc =
        sales.foldl Reports.addToGroupsSpec acc := by
  induction sales with
  | nil => intro acc _; rfl
  | cons a t ih =>
    intro acc h
    simp only [List.foldl_cons]
    rw [addToGroups_eq_spec acc a (h a (List.mem_cons_self _ _))]
    exact ih _ (fun s hs => h s (List.mem_cons_of_mem _ hs))

/-- Helper for C9: grouping a sale list whose names are all non-array-index
strings yields only such group names. -/
theorem foldl_groups_arrayIndex_free (sales : List Reports.RSale) :
    ∀ acc : List Reports.MedGroup,
      (∀ s ∈ sales, Reports.isArrayIndex s.medicineName = false) →
      (∀ g ∈ acc, Reports.isArrayIndex g.name = false) →
      ∀ g ∈ sales.foldl Reports.addToGroups acc,
        Reports.isArrayIndex g.name = false := by
  induction sales with
  | nil =>
    intro acc _ hacc g hg
    exact hacc g (by simpa using hg)
  | cons a t ih =>
    intro acc hs hacc
    simp only [List.foldl_cons]
    exact ih _ (fun s hmem => hs s (List.mem_cons_of_mem _ hmem))
      (addToGroups_arrayIndex_free acc a hacc (hs a (List.mem_cons_self _ _)))

/-- Helper for C9: when no key is an array-index string, the object
enumeration order is the key-creation order. -/
theorem objectValues_of_arrayIndex_free (l : List Reports.MedGroup)
    (h : ∀ g ∈ l, Reports.isArrayIndex g.name = false) :
    Reports.objectValues l = l := by
  unfold Reports.objectValues
  have h1 : l.filter (fun g => Reports.isArrayIndex g.name) = [] := by
    rw [List.filter_eq_nil_iff]
    intro a ha
    simp [h a ha]
  have h2 : l.filter (fun g => !Reports.isArrayIndex g.name) = l := by
    rw [List.filter_eq_self]
    intro a ha
    simp [h a ha]
  rw [h1, h2]
  rfl

/-- Helper for C9: inserting into a descending-by-revenue list keeps it
descending. -/
theorem chain_insertByRevenue (g : Reports.MedGroup)
    (l : List Reports.MedGroup)
    (h : List.Chain' (fun a b => b.revenue ≤ a.revenue) l) :
    List.Chain' (fun a b => b.revenue ≤ a.revenue)
      (Reports.insertByRevenue g l) := by
  induction l with
  | nil => simp [Reports.insertByRevenue]
  | cons a t ih =>
    rw [Reports.insertByRevenue]
    split
    · rename_i hga
      rw [List.chain'_cons']
      refine ⟨?_, ih h.tail⟩
      intro x hx
      cases t with
      | nil =>
        simp [Reports.insertByRevenue] at hx
        subst hx
        exact hga
      | cons b t2 =>
        rw [Reports.insertByRevenue] at hx
        split at hx
        · simp at hx
          subst hx
          exact (List.chain'_cons.1 h).1
        · simp at hx
          subst hx
          exact hga
    · rename_i hga
      rw [List.chain'_cons]
      exact ⟨(not_le.1 hga).le, h⟩

/-- Helper for C9: the stable descending sort produces a
descending-by-revenue list. -/
theorem chain_sortByRevenueDesc (l : List Reports.MedGroup) :
    List.Chain' (fun a b => b.revenue ≤ a.revenue)
      (Reports.sortByRevenueDesc l) := by
  suffices H : ∀ acc, List.Chain' (fun a b => b.revenue ≤ a.revenue) acc →
      List.Chain' (fun a b => b.revenue ≤ a.revenue)
        (l.foldl (fun acc g => Reports.insertByRevenue g acc) acc) by
    simpa [Reports.sortByRevenueDesc] using H [] (by simp)
  induction l with
  | nil =>
    intro acc h
    simpa using h
  | cons a t ih =>
    intro acc h
    simp only [List.foldl_cons]
    exact ih _ (chain_insertByRevenue a acc h)

/-- A sale whose medicine name collides with an inherited
`Object.prototype` property. -/
def protoSales : List Reports.RSale :=
  [{ medicineName := "toString", quantitySold := 1, totalPrice := 5 }]

/-- C9 amended: the displayed top-selling list is descending by revenue and
has at most 5 entries, and it equals the spec's list — top-5 by revenue with
ties broken by first-appearance order — whenever no medicine name is an
array-index string (a digit string such as "0", hoisted to the front of the
object's enumeration, breaking the tie order) and no medicine name is an
inherited `Object.prototype` property name (such as "toString": the
`if (!acc[name])` guard sees the inherited truthy property, no own key is
ever created, and the sale vanishes from the displayed list, as the last
conjunct shows concretely). -/
theorem topSelling_amended :
    (∀ sales : List Reports.RSale,
      (∀ s ∈ sales, Reports.isArrayIndex s.medicineName = false) →
      (∀ s ∈ sales,
        Reports.objectPrototypeKeys.contains s.medicineName = false) →
      Reports.topSelling sales = Reports.topSellingSpec sales) ∧
    (∀ sales : List Reports.RSale, (Reports.topSelling sales).length ≤ 5) ∧
    (∀ sales : List Reports.RSale,
      List.Chain' (fun a b => b.revenue ≤ a.revenue)
        (Reports.topSelling sales)) ∧
    (Reports.topSelling protoSales = [] ∧
     (Reports.topSellingSpec protoSales).length = 1) := by
  refine ⟨?_, ?_, ?_, rfl, rfl⟩
  · intro sales h1 h2
    unfold Reports.topSelling Reports.topSellingSpec
    rw [objectValues_of_arrayIndex_free (Reports.byMedicine sales)
      (foldl_groups_arrayIndex_free sales [] h1 (by simp))]
    rw [show Reports.byMedicine sales = Reports.byMedicineSpec sales from
      foldl_groups_eq_spec sales [] h2]
  · intro sales
    exact List.length_take_le 5 _
  · intro sales
    exact (chain_sortByRevenueDesc _).take 5

/-- Two sales with ordinary medicine names (neither digit strings nor
prototype property names). -/
def plainSales : List Reports.RSale :=
  [{ medicineName := "Aspirin", quantitySold := 3, totalPrice := 15 / 2 },
   { medicineName := "Ibuprofen", quantitySold := 1, totalPrice := 5 }]

/-- C9 amended witness: on sales with ordinary names the displayed list
equals the spec's list. -/
theorem topSelling_amended_witness :
    Reports.topSelling plainSales = Reports.topSellingSpec plainSales :=
  topSelling_amended.1 plainSales (by decide) (by decide)

/-- C10 counterexample: in the embedded variant a supplied falsy field IS
applied when it is not `price`/`quantity` — updating with `name = ""`
overwrites the stored name with the empty string — because the object
spread copies every supplied field and only `price` and `quantity` are
truthiness-filtered; and an update with `quantity = 0` does not leave the
stored quantity unchanged either: the document carries `quantity:
undefined`, which Dexie's `Table.update` turns into deletion of the stored
property (row quantity becomes absent, where it was 10). -/
theorem updateMedicine_falsy_cex :
    dbA.medicines.map Dexie.Medicine.name = ["Aspirin"] ∧
    (Dexie.updateMedicine dbA 1 { name := some "" }).map
      Dexie.StoredRow.name = [some ""] ∧
    dbA.medicines.map Dexie.Medicine.quantity = [10] ∧
    (Dexie.updateMedicine dbA 1 { quantity := some 0 }).map
      Dexie.StoredRow.quantity = [none] :=
  ⟨rfl, rfl, rfl, rfl⟩

/-- C10 amended: in the hosted variant every falsy supplied field is dropped
from the update and the stored values are unchanged.  In the embedded
variant the update document always carries the `price` and `quantity` keys;
a falsy supplied value leaves `undefined` there, and Dexie's `Table.update`
DELETES a property whose change value is `undefined` — so an update with
`quantity = 0` or `price = 0` removes the stored quantity/price of the
matched row (rather than leaving it unchanged), while rows with other ids
keep their values.  In neither variant is the parsed `0` ever written:
stock cannot be set to zero through `updateMedicine`. -/
theorem updateMedicine_falsy_amended (dbS : Supa.DB) (sid : Nat)
    (u : Supa.Updates) (dbD : Dexie.DB) (did : Nat) (ud : Dexie.Updates)
    (hq : Dexie.truthyInt u.quantity = false)
    (hp : Dexie.truthyRat u.sellingPrice = false)
    (hqd : Dexie.truthyInt ud.quantity = false)
    (hpd : Dexie.truthyRat ud.price = false) :
    (Supa.updateMedicine dbS sid u).medicines.map Supa.Medicine.quantity =
      dbS.medicines.map Supa.Medicine.quantity ∧
    (Supa.updateMedicine dbS sid u).medicines.map Supa.Medicine.sellingPrice =
      dbS.medicines.map Supa.Medicine.sellingPrice ∧
    (Dexie.updateMedicine dbD did ud).map Dexie.StoredRow.quantity =
      dbD.medicines.map
        (fun m => if m.id == did then none else some m.quantity) ∧
    (Dexie.updateMedicine dbD did ud).map Dexie.StoredRow.price =
      dbD.medicines.map
        (fun m => if m.id == did then none else some m.price) := by
  refine ⟨?_, ?_, ?_, ?_⟩
  · simp only [Supa.updateMedicine, List.map_map]
    refine List.map_congr_left ?_
    intro m _
    simp only [Function.comp_apply]
    split
    · simp [Supa.applyDoc, Supa.updateDoc, hq]
    · rfl
  · simp only [Supa.updateMedicine, List.map_map]
    refine List.map_congr_left ?_
    intro m _
    simp only [Function.comp_apply]
    split
    · simp [Supa.applyDoc, Supa.updateDoc, hp]
    · rfl
  · simp only [Dexie.updateMedicine, List.map_map]
    refine List.map_congr_left ?_
    intro m _
    simp only [Function.comp_apply]
    split
    · rename_i hid
      simp [hid, Dexie.applyDoc, Dexie.updateDoc, hqd]
    · rename_i hid
      simp [hid, Dexie.toStored]
  · simp only [Dexie.updateMedicine, List.map_map]
    refine List.map_congr_left ?_
    intro m _
    simp only [Function.comp_apply]
    split
    · rename_i hid
      simp [hid, Dexie.applyDoc, Dexie.updateDoc, hpd]
    · rename_i hid
      simp [hid, Dexie.toStored]

/-- The zero-valued update of the hosted schema. -/
def falsyUpdS : Supa.Updates := { quantity := some 0, sellingPrice := some 0 }

/-- The zero-valued update of the embedded schema. -/
def falsyUpdD : Dexie.Updates := { quantity := some 0, price := some 0 }

/-- C10 amended witness: on the Scenario A states, an update with quantity 0
and price 0 leaves the hosted variant's quantity and price unchanged and
deletes the embedded variant's stored quantity and price of the matched
row. -/
theorem updateMedicine_falsy_amended_witness :
    (Supa.updateMedicine sdbA 1 falsyUpdS).medicines.map Supa.Medicine.quantity =
      sdbA.medicines.map Supa.Medicine.quantity ∧
    (Supa.updateMedicine sdbA 1 falsyUpdS).medicines.map Supa.Medicine.sellingPrice =
      sdbA.medicines.map Supa.Medicine.sellingPrice ∧
    (Dexie.updateMedicine dbA 1 falsyUpdD).map Dexie.StoredRow.quantity =
      dbA.medicines.map
        (fun m => if m.id == 1 then none else some m.quantity) ∧
    (Dexie.updateMedicine dbA 1 falsyUpdD).map Dexie.StoredRow.price =
      dbA.medicines.map
        (fun m => if m.id == 1 then none else some m.price) :=
  updateMedicine_falsy_amended sdbA 1 falsyUpdS dbA 1 falsyUpdD rfl rfl rfl rfl
